import Mathlib

/-!
# Medical report comparison engine — shallow embedding

This file embeds the report-comparison / trend-classification core of the
medical report analyzer and proves the specification's properties about it.

The trend classifier and parameter matcher are embedded from the
"Comparison Algorithm" pseudocode in the project documentation
(src/unnamed/part_000, lines 121–141).  Numeric values are modelled as
rationals (`ℚ`); a Python division by zero is modelled by `Option`
(`none` = the computation aborts / is undefined).  The aggregator
(`ComparisonSummary`) has no implementation in the repository sources, so it
is modelled from the spec (§4.3), as marked on each such definition.
The frontend display helpers (`getParameterInfo` fuzzy lookup, the Compare
page chart fractions) are embedded from
src/frontend/src/pages/Upload.jsx; JavaScript division (where `0/0` is
`NaN`) is modelled by the `JSNum` type.
-/

namespace MedReport

/-- The three trend labels of a `ComparisonResult` (spec §3). -/
inductive Trend where
  | improved
  | worsened
  | stable
deriving DecidableEq, Repr

/-- An extracted report parameter (spec §3, §6).  `value` is `none` when the
extracted value is non-numeric / unparseable. -/
structure Parameter where
  name : String
  value : Option ℚ
  unit : String
  reference_range : String
  status : String
deriving DecidableEq, Repr

/-- One entry of the comparison output, per matched parameter pair
(spec §3). -/
structure ComparisonResult where
  parameter_name : String
  old_value : ℚ
  new_value : ℚ
  unit : String
  change : ℚ
  change_percentage : ℚ
  trend : Trend
deriving DecidableEq, Repr

/-- Modelled from the spec: §4.2's directionality table (the backend body of
`parameter_improves_when_lower`, referenced by the Comparison Algorithm
pseudocode, is not among the repository sources).  Names whose value improves
when it goes down: cholesterol, glucose, liver enzymes, … -/
def lowerIsBetterNames : List String :=
  ["Total Cholesterol", "LDL", "Triglycerides", "Glucose", "HbA1c",
   "GGTP FCC", "ALT (SGPT) IFCC without PSP", "AST (SGOT) IFCC without P5P",
   "Bilirubin Direct OPD", "Alkaline Phosphatase (ALP) FCC-AMP",
   "Creatinine", "BUN"]

/-- Modelled from the spec: `parameter_improves_when_lower(name)` of the
pseudocode; unmapped names default to higher-is-better (`false`), the
documented fallback policy of §4.2. -/
def parameter_improves_when_lower (name : String) : Bool :=
  lowerIsBetterNames.contains name

/-- Python's `abs` on a rational value. -/
def pyAbs (q : ℚ) : ℚ :=
  if q < 0 then -q else q

/-- The trend classifier for one matched pair, embedded from the Comparison
Algorithm pseudocode (src/unnamed/part_000, lines 129–139):

    change = new_value - old_value
    change_percentage = (change / old_value) * 100
    if parameter_improves_when_lower(name):
        trend = "improved" if change < 0 else "worsened"
    else:
        trend = "improved" if change > 0 else "worsened"
    if abs(change_percentage) < 5:
        trend = "stable"

The division is unguarded; with `old_value = 0` the Python code raises
`ZeroDivisionError`, modelled here by `none`. -/
def classifyPair (lowerBetter : Bool) (name uni : String)
    (old_value new_value : ℚ) : Option ComparisonResult :=
  if old_value = 0 then none
  else
    let change := new_value - old_value
    let change_percentage := (change / old_value) * 100
    let dirTrend :=
      if lowerBetter then
        if change < 0 then Trend.improved else Trend.worsened
      else
        if change > 0 then Trend.improved else Trend.worsened
    let trend := if pyAbs change_percentage < 5 then Trend.stable else dirTrend
    some { parameter_name := name, old_value := old_value,
           new_value := new_value, unit := uni, change := change,
           change_percentage := change_percentage, trend := trend }

/-- Projection: the trend the classifier assigns to a pair (`none` when the
classifier aborts on a zero old value). -/
def trendOf (lowerBetter : Bool) (name uni : String)
    (old_value new_value : ℚ) : Option Trend :=
  (classifyPair lowerBetter name uni old_value new_value).map
    ComparisonResult.trend

/-- `find_parameter_in_old_report(parameter.name)` of the pseudocode
(src/unnamed/part_000, lines 126–128), restricted to numerically valued
parameters per spec §4.1 ("parameters whose value fails numeric parsing are
excluded"): the first old-report parameter with the given name and a numeric
value. -/
def find_parameter_in_old_report (old : List Parameter) (n : String) :
    Option Parameter :=
  (old.filter (fun p => p.value.isSome)).find? (fun p => p.name == n)

/-- The old value matched for a name, when one exists. -/
def findOldValue (old : List Parameter) (n : String) : Option ℚ :=
  (find_parameter_in_old_report old n).bind Parameter.value

/-- The matcher + classifier loop of the Comparison Algorithm pseudocode
(src/unnamed/part_000, lines 125–141): iterate the new report's parameters
in order; a parameter with no numeric counterpart in the old report is
skipped silently; each matched numeric pair is classified.  `none` models
the `ZeroDivisionError` the unguarded percentage computation raises when a
matched old value is 0. -/
def compareReports (old : List Parameter) :
    List Parameter → Option (List ComparisonResult)
  | [] => some []
  | p :: ps =>
    match p.value with
    | none => compareReports old ps
    | some nv =>
      match findOldValue old p.name with
      | none => compareReports old ps
      | some ov =>
        (classifyPair (parameter_improves_when_lower p.name) p.name p.unit
            ov nv).bind
          (fun r => (compareReports old ps).map (fun rs => r :: rs))

/-- The aggregate summary of a comparison (spec §3). -/
structure ComparisonSummary where
  total_parameters : ℕ
  improved : ℕ
  worsened : ℕ
  stable : ℕ
  improvement_rate : ℚ
  health_score : ℚ
deriving DecidableEq, Repr

/-- Tally of results carrying a given trend. -/
def countTrend (t : Trend) (rs : List ComparisonResult) : ℕ :=
  (rs.filter (fun r => r.trend == t)).length

/-- Modelled from the spec: the neutral health score for an all-stable or
empty comparison (§4.3 suggests 50). -/
def neutralScore : ℚ := 50

/-- Modelled from the spec: the health score formula (§4.3 leaves the exact
weighting an implementation choice constrained to: all-improved → 100,
all-worsened → 0, all-stable → neutral, monotone in improved/worsened).
Chosen: `50 + 50 · (improved − worsened) / total`, neutral when no
parameters were matched. -/
def healthScore (improved worsened total : ℕ) : ℚ :=
  if total = 0 then neutralScore
  else neutralScore + neutralScore * ((improved : ℚ) - (worsened : ℚ)) / total

/-- Modelled from the spec: the Aggregator (§4.3; its backend implementation
is not among the repository sources).  Counts are a tally by trend,
`total_parameters` is the number of matched pairs, `improvement_rate` is
improved/total × 100 with 0 when no pairs matched. -/
def aggregate (rs : List ComparisonResult) : ComparisonSummary :=
  let imp := countTrend Trend.improved rs
  let wor := countTrend Trend.worsened rs
  let sta := countTrend Trend.stable rs
  let total := rs.length
  { total_parameters := total, improved := imp, worsened := wor,
    stable := sta,
    improvement_rate :=
      if total = 0 then 0 else (imp : ℚ) / (total : ℚ) * 100,
    health_score := healthScore imp wor total }

/-- A display-metadata record of the frontend's medical parameter
descriptions database (src/frontend/src/pages/Upload.jsx, `parameterInfo`). -/
structure ParamInfo where
  name : String
  description : String
  normalRange : String
  highMeans : String
  lowMeans : String
deriving DecidableEq, Repr

/-- The frontend's `parameterInfo` descriptions database, embedded from
src/frontend/src/pages/Upload.jsx (lines 266–427) as an ordered association
list (JavaScript object entries iterate in insertion order). -/
def parameterInfo : List (String × ParamInfo) :=
  [("GGTP FCC",
    { name := "Gamma-Glutamyl Transferase (GGT)",
      description := "An enzyme found primarily in the liver. Elevated levels may indicate liver disease, bile duct problems, or alcohol consumption.",
      normalRange := "0-55 U/L",
      highMeans := "Possible liver damage, bile duct obstruction, or excessive alcohol use",
      lowMeans := "Generally not concerning" }),
   ("ALT (SGPT) IFCC without PSP",
    { name := "Alanine Aminotransferase (ALT)",
      description := "An enzyme found mainly in the liver. High levels indicate liver damage or inflammation.",
      normalRange := "7-56 U/L",
      highMeans := "Liver damage, hepatitis, fatty liver disease",
      lowMeans := "Generally not concerning" }),
   ("AST (SGOT) IFCC without P5P",
    { name := "Aspartate Aminotransferase (AST)",
      description := "An enzyme found in liver and heart. Elevated levels suggest liver or heart damage.",
      normalRange := "10-40 U/L",
      highMeans := "Liver damage, heart problems, or muscle injury",
      lowMeans := "Generally not concerning" }),
   ("Bilirubin Direct OPD",
    { name := "Direct Bilirubin",
      description := "A breakdown product of red blood cells processed by the liver. High levels indicate liver or bile duct problems.",
      normalRange := "0-0.3 mg/dL",
      highMeans := "Liver disease or bile duct obstruction",
      lowMeans := "Generally not concerning" }),
   ("AST : ALT Ratio",
    { name := "AST to ALT Ratio",
      description := "Ratio of two liver enzymes used to help diagnose the cause of liver problems.",
      normalRange := "<1.0 (ratio)",
      highMeans := "May indicate alcohol-related liver disease or cirrhosis",
      lowMeans := "May indicate viral hepatitis or fatty liver disease" }),
   ("Alkaline Phosphatase (ALP) FCC-AMP",
    { name := "Alkaline Phosphatase (ALP)",
      description := "An enzyme found in liver, bones, and bile ducts. Elevated levels may indicate liver or bone problems.",
      normalRange := "44-147 U/L",
      highMeans := "Liver disease, bile duct obstruction, or bone disorders",
      lowMeans := "Malnutrition or zinc deficiency" }),
   ("Total Protein",
    { name := "Total Protein",
      description := "Measures all proteins in blood. Helps assess nutritional status, liver and kidney function.",
      normalRange := "6.0-8.3 g/dL",
      highMeans := "Dehydration, chronic inflammation, or multiple myeloma",
      lowMeans := "Malnutrition, liver disease, or kidney disease" }),
   ("Hemoglobin",
    { name := "Hemoglobin (Hgb)",
      description := "Protein in red blood cells that carries oxygen throughout the body.",
      normalRange := "Male: 13.5-17.5 g/dL, Female: 12.0-15.5 g/dL",
      highMeans := "Dehydration, lung disease, or polycythemia",
      lowMeans := "Anemia, blood loss, or nutritional deficiency" }),
   ("RBC",
    { name := "Red Blood Cell Count",
      description := "Number of red blood cells that carry oxygen throughout the body.",
      normalRange := "Male: 4.5-5.9 M/μL, Female: 4.1-5.1 M/μL",
      highMeans := "Dehydration, lung disease, or bone marrow disorders",
      lowMeans := "Anemia, blood loss, or bone marrow problems" }),
   ("WBC",
    { name := "White Blood Cell Count",
      description := "Measures immune system cells that fight infection.",
      normalRange := "4,000-11,000 cells/μL",
      highMeans := "Infection, inflammation, or leukemia",
      lowMeans := "Weak immune system, bone marrow disorders, or autoimmune disease" }),
   ("Platelets",
    { name := "Platelet Count",
      description := "Cell fragments that help blood clot and stop bleeding.",
      normalRange := "150,000-400,000/μL",
      highMeans := "Blood clotting disorders or bone marrow disease",
      lowMeans := "Risk of bleeding, autoimmune disease, or medication side effects" }),
   ("Total Cholesterol",
    { name := "Total Cholesterol",
      description := "Measures all cholesterol in blood. High levels increase heart disease risk.",
      normalRange := "<200 mg/dL (desirable)",
      highMeans := "Increased risk of heart disease and stroke",
      lowMeans := "Generally healthy, but very low may indicate malnutrition" }),
   ("HDL",
    { name := "HDL Cholesterol (Good Cholesterol)",
      description := "High-density lipoprotein removes bad cholesterol from arteries.",
      normalRange := ">40 mg/dL (men), >50 mg/dL (women)",
      highMeans := "Lower risk of heart disease",
      lowMeans := "Increased risk of heart disease" }),
   ("LDL",
    { name := "LDL Cholesterol (Bad Cholesterol)",
      description := "Low-density lipoprotein can build up in arteries and increase heart disease risk.",
      normalRange := "<100 mg/dL (optimal)",
      highMeans := "Increased risk of heart disease and stroke",
      lowMeans := "Lower risk of heart disease" }),
   ("Triglycerides",
    { name := "Triglycerides",
      description := "Type of fat in blood. High levels increase heart disease risk.",
      normalRange := "<150 mg/dL",
      highMeans := "Risk of heart disease, pancreatitis, fatty liver",
      lowMeans := "Generally healthy" }),
   ("Creatinine",
    { name := "Creatinine",
      description := "Waste product from muscle metabolism. Measures kidney function.",
      normalRange := "Male: 0.7-1.3 mg/dL, Female: 0.6-1.1 mg/dL",
      highMeans := "Kidney disease or dehydration",
      lowMeans := "Low muscle mass or pregnancy" }),
   ("BUN",
    { name := "Blood Urea Nitrogen",
      description := "Waste product filtered by kidneys. Measures kidney function.",
      normalRange := "7-20 mg/dL",
      highMeans := "Kidney disease, dehydration, or high protein diet",
      lowMeans := "Liver disease or malnutrition" }),
   ("TSH",
    { name := "Thyroid Stimulating Hormone",
      description := "Controls thyroid hormone production. Key test for thyroid function.",
      normalRange := "0.4-4.0 mIU/L",
      highMeans := "Underactive thyroid (hypothyroidism)",
      lowMeans := "Overactive thyroid (hyperthyroidism)" }),
   ("T3",
    { name := "Triiodothyronine",
      description := "Active thyroid hormone that regulates metabolism.",
      normalRange := "80-200 ng/dL",
      highMeans := "Overactive thyroid",
      lowMeans := "Underactive thyroid" }),
   ("T4",
    { name := "Thyroxine",
      description := "Main thyroid hormone that regulates metabolism.",
      normalRange := "5-12 μg/dL",
      highMeans := "Overactive thyroid",
      lowMeans := "Underactive thyroid" }),
   ("Glucose",
    { name := "Blood Glucose (Sugar)",
      description := "Measures blood sugar level. High levels indicate diabetes risk.",
      normalRange := "Fasting: 70-100 mg/dL",
      highMeans := "Diabetes or prediabetes",
      lowMeans := "Hypoglycemia (low blood sugar)" }),
   ("HbA1c",
    { name := "Hemoglobin A1c",
      description := "Average blood sugar over past 2-3 months. Key test for diabetes management.",
      normalRange := "<5.7%",
      highMeans := "Diabetes or poor diabetes control",
      lowMeans := "Good blood sugar control" })]

/-- `containsChars needle hay`: `needle` occurs as a contiguous run in
`hay`. -/
def containsChars (needle : List Char) : List Char → Bool
  | [] => needle.isEmpty
  | hay@(_ :: rest) => needle.isPrefixOf hay || containsChars needle rest

/-- JavaScript `s.includes(t)`: `t` occurs as a substring of `s`. -/
def jsIncludes (s t : String) : Bool :=
  containsChars t.toList s.toList

/-- JavaScript `s.split(' ')[0]`: the first space-separated token. -/
def firstWord (s : String) : String :=
  (s.splitOn " ").headD ""

/-- The fallback record returned by `getParameterInfo` when no table entry
matches (src/frontend/src/pages/Upload.jsx, lines 441–447). -/
def defaultParamInfo (paramName : String) : ParamInfo :=
  { name := paramName,
    description := "This is a medical test parameter. Consult your doctor for specific interpretation.",
    normalRange := "Varies by lab and individual factors",
    highMeans := "Consult your healthcare provider",
    lowMeans := "Consult your healthcare provider" }

/-- The frontend's fuzzy display-metadata lookup, embedded from
`getParameterInfo` (src/frontend/src/pages/Upload.jsx, lines 430–448),
parametrized by the descriptions table: exact key hit first, then the first
table entry related to the query by case-insensitive first-word substring
containment, else the generic fallback.  It is called only to render
description tooltips, never in the comparison pipeline. -/
def getParameterInfoT (table : List (String × ParamInfo))
    (paramName : String) : ParamInfo :=
  match table.find? (fun e => e.1 == paramName) with
  | some e => e.2
  | none =>
    let searchTerms := paramName.toLower
    match table.find? (fun e =>
        jsIncludes searchTerms (firstWord e.1.toLower) ||
        jsIncludes e.1.toLower (firstWord searchTerms)) with
    | some e => e.2
    | none => defaultParamInfo paramName

/-- `getParameterInfo` at the source's literal table. -/
def getParameterInfo (paramName : String) : ParamInfo :=
  getParameterInfoT parameterInfo paramName

/-- The rendered comparison view: the comparison pipeline's results paired
with the display metadata the UI looks up per parameter name.  The
comparison itself comes from `compareReports`; the table feeds only the
attached `ParamInfo`. -/
def renderView (table : List (String × ParamInfo))
    (old new_report : List Parameter) :
    Option (List (ComparisonResult × ParamInfo)) :=
  (compareReports old new_report).map
    (fun rs => rs.map (fun r => (r, getParameterInfoT table r.parameter_name)))

/-- JavaScript numbers as far as the chart arithmetic needs them: a finite
value, `NaN`, or a signed infinity. -/
inductive JSNum where
  | num (q : ℚ)
  | nan
  | inf
  | ninf
deriving DecidableEq, Repr

/-- JavaScript division: `0/0` is `NaN`, a nonzero value over `0` is a
signed infinity, otherwise exact division. -/
def jsDiv (a b : ℚ) : JSNum :=
  if b = 0 then
    if a = 0 then JSNum.nan
    else if 0 < a then JSNum.inf
    else JSNum.ninf
  else JSNum.num (a / b)

/-- JavaScript multiplication of a possibly non-finite value by a finite
constant: `NaN` propagates; an infinity times zero is `NaN`, otherwise its
sign follows the constant. -/
def jsMul (x : JSNum) (c : ℚ) : JSNum :=
  match x with
  | JSNum.num q => JSNum.num (q * c)
  | JSNum.nan => JSNum.nan
  | JSNum.inf =>
    if 0 < c then JSNum.inf else if c < 0 then JSNum.ninf else JSNum.nan
  | JSNum.ninf =>
    if 0 < c then JSNum.ninf else if c < 0 then JSNum.inf else JSNum.nan

/-- Compare page pie chart, improved slice `strokeDasharray` length
(src/frontend/src/pages/Upload.jsx, line 943):
`(summary.improved / summary.total_parameters) * 251.2`, unguarded. -/
def pieImprovedDash (s : ComparisonSummary) : JSNum :=
  jsMul (jsDiv (s.improved : ℚ) (s.total_parameters : ℚ)) (2512 / 10)

/-- Compare page pie chart, worsened slice `strokeDasharray` length
(src/frontend/src/pages/Upload.jsx, line 954), unguarded. -/
def pieWorsenedDash (s : ComparisonSummary) : JSNum :=
  jsMul (jsDiv (s.worsened : ℚ) (s.total_parameters : ℚ)) (2512 / 10)

/-- Compare page pie chart, stable slice `strokeDasharray` length
(src/frontend/src/pages/Upload.jsx, line 966), unguarded. -/
def pieStableDash (s : ComparisonSummary) : JSNum :=
  jsMul (jsDiv (s.stable : ℚ) (s.total_parameters : ℚ)) (2512 / 10)

/-- Compare page bar chart, improved bar width percentage
(src/frontend/src/pages/Upload.jsx, line 1025):
`(summary.improved / summary.total_parameters) * 100`, unguarded. -/
def barImprovedWidth (s : ComparisonSummary) : JSNum :=
  jsMul (jsDiv (s.improved : ℚ) (s.total_parameters : ℚ)) 100

/-- Compare page bar chart, worsened bar width percentage
(src/frontend/src/pages/Upload.jsx, line 1048), unguarded. -/
def barWorsenedWidth (s : ComparisonSummary) : JSNum :=
  jsMul (jsDiv (s.worsened : ℚ) (s.total_parameters : ℚ)) 100

/-- Compare page bar chart, stable bar width percentage
(src/frontend/src/pages/Upload.jsx, line 1071), unguarded. -/
def barStableWidth (s : ComparisonSummary) : JSNum :=
  jsMul (jsDiv (s.stable : ℚ) (s.total_parameters : ℚ)) 100

/-! ## Helper lemmas -/

theorem beq_strings (a b : String) : (a == b) = decide (a = b) := by
  by_cases h : a = b <;> simp [h]

theorem classifyPair_of_ne_zero (L : Bool) (n u : String) (ov nv : ℚ)
    (h0 : ov ≠ 0) :
    classifyPair L n u ov nv = some
      { parameter_name := n, old_value := ov, new_value := nv, unit := u,
        change := nv - ov, change_percentage := (nv - ov) / ov * 100,
        trend :=
          if pyAbs ((nv - ov) / ov * 100) < 5 then Trend.stable
          else if L then
            if nv - ov < 0 then Trend.improved else Trend.worsened
          else
            if 0 < nv - ov then Trend.improved else Trend.worsened } := by
  simp [classifyPair, h0]

theorem classifyPair_zero (L : Bool) (n u : String) (nv : ℚ) :
    classifyPair L n u 0 nv = none := by
  simp [classifyPair]

theorem trendOf_of_ne_zero (L : Bool) (n u : String) (ov nv : ℚ)
    (h0 : ov ≠ 0) :
    trendOf L n u ov nv = some
      (if pyAbs ((nv - ov) / ov * 100) < 5 then Trend.stable
       else if L then
         if nv - ov < 0 then Trend.improved else Trend.worsened
       else
         if 0 < nv - ov then Trend.improved else Trend.worsened) := by
  simp [trendOf, classifyPair_of_ne_zero L n u ov nv h0]

theorem classifyPair_name (L : Bool) (n u : String) (ov nv : ℚ)
    (r : ComparisonResult) (h : classifyPair L n u ov nv = some r) :
    r.parameter_name = n := by
  by_cases h0 : ov = 0
  · rw [h0, classifyPair_zero] at h
    cases h
  · rw [classifyPair_of_ne_zero L n u ov nv h0] at h
    cases h
    rfl

theorem findOldValue_isSome_iff (old : List Parameter) (n : String) :
    (findOldValue old n).isSome ↔
      ∃ q ∈ old, q.name = n ∧ q.value.isSome := by
  unfold findOldValue find_parameter_in_old_report
  constructor
  · intro h
    rcases Option.isSome_iff_exists.mp h with ⟨v, hv⟩
    rcases Option.bind_eq_some.mp hv with ⟨p, hfind, hval⟩
    have hmem := List.mem_of_find?_eq_some hfind
    have hpred := List.find?_some hfind
    rw [List.mem_filter] at hmem
    refine ⟨p, hmem.1, ?_, by simp [hval]⟩
    simpa using hpred
  · rintro ⟨q, hq, hn, hv⟩
    have hfs : (List.find? (fun p => p.name == n)
        (old.filter (fun p => p.value.isSome))).isSome := by
      refine List.find?_isSome.mpr ⟨q, List.mem_filter.mpr ⟨hq, hv⟩, ?_⟩
      simp [hn]
    rcases Option.isSome_iff_exists.mp hfs with ⟨p, hp⟩
    have hpmem := List.mem_of_find?_eq_some hp
    rw [List.mem_filter] at hpmem
    rw [hp]
    simpa using hpmem.2

theorem compareReports_mem (old : List Parameter) (L : List Parameter)
    (rs : List ComparisonResult) (h : compareReports old L = some rs)
    (r : ComparisonResult) (hr : r ∈ rs) :
    (∃ p ∈ L, p.name = r.parameter_name ∧ p.value.isSome) ∧
      (∃ q ∈ old, q.name = r.parameter_name ∧ q.value.isSome) := by
  induction L generalizing rs with
  | nil =>
    rw [compareReports] at h
    cases h
    cases hr
  | cons p ps ih =>
    rw [compareReports] at h
    cases hv : p.value with
    | none =>
      rw [hv] at h
      rcases ih rs h hr with ⟨⟨p', hp', hn', hv'⟩, hold⟩
      exact ⟨⟨p', by simp [hp'], hn', hv'⟩, hold⟩
    | some nv =>
      rw [hv] at h
      cases hov : findOldValue old p.name with
      | none =>
        rw [hov] at h
        rcases ih rs h hr with ⟨⟨p', hp', hn', hv'⟩, hold⟩
        exact ⟨⟨p', by simp [hp'], hn', hv'⟩, hold⟩
      | some ov =>
        rw [hov] at h
        rcases Option.bind_eq_some.mp h with ⟨r', hcl, hmap⟩
        rcases Option.map_eq_some'.mp hmap with ⟨rest, hrest, hcons⟩
        subst hcons
        rcases List.mem_cons.mp hr with hr' | hr'
        · subst hr'
          have hname :=
            classifyPair_name (parameter_improves_when_lower p.name)
              p.name p.unit ov nv r hcl
          refine ⟨⟨p, by simp, hname.symm, by simp [hv]⟩, ?_⟩
          have hos : (findOldValue old p.name).isSome := by simp [hov]
          rcases (findOldValue_isSome_iff old p.name).mp hos with
            ⟨q, hq, hqn, hqv⟩
          exact ⟨q, hq, by rw [hqn, hname], hqv⟩
        · rcases ih rest hrest hr' with ⟨⟨p', hp', hn', hv'⟩, hold⟩
          exact ⟨⟨p', by simp [hp'], hn', hv'⟩, hold⟩

theorem compareReports_mem_exists (old : List Parameter) (L : List Parameter)
    (rs : List ComparisonResult) (n : String)
    (h : compareReports old L = some rs)
    (hnew : ∃ p ∈ L, p.name = n ∧ p.value.isSome)
    (hold : ∃ q ∈ old, q.name = n ∧ q.value.isSome) :
    ∃ r ∈ rs, r.parameter_name = n := by
  induction L generalizing rs with
  | nil =>
    rcases hnew with ⟨p, hp, _⟩
    cases hp
  | cons p ps ih =>
    rw [compareReports] at h
    cases hv : p.value with
    | none =>
      rw [hv] at h
      rcases hnew with ⟨p', hp', hn', hv'⟩
      rcases List.mem_cons.mp hp' with hp'' | hp''
      · subst hp''
        rw [hv] at hv'
        cases hv'
      · exact ih rs h ⟨p', hp'', hn', hv'⟩
    | some nv =>
      rw [hv] at h
      cases hov : findOldValue old p.name with
      | none =>
        rw [hov] at h
        rcases hnew with ⟨p', hp', hn', hv'⟩
        rcases List.mem_cons.mp hp' with hp'' | hp''
        · subst hp''
          have hos : (findOldValue old p'.name).isSome := by
            rw [hn']
            exact (findOldValue_isSome_iff old n).mpr hold
          rw [hov] at hos
          cases hos
        · exact ih rs h ⟨p', hp'', hn', hv'⟩
      | some ov =>
        rw [hov] at h
        rcases Option.bind_eq_some.mp h with ⟨r', hcl, hmap⟩
        rcases Option.map_eq_some'.mp hmap with ⟨rest, hrest, hcons⟩
        subst hcons
        rcases hnew with ⟨p', hp', hn', hv'⟩
        rcases List.mem_cons.mp hp' with hp'' | hp''
        · subst hp''
          have hname :=
            classifyPair_name (parameter_improves_when_lower p'.name)
              p'.name p'.unit ov nv r' hcl
          exact ⟨r', by simp, by rw [hname, hn']⟩
        · rcases ih rest hrest ⟨p', hp'', hn', hv'⟩ with ⟨r, hrmem, hrn⟩
          exact ⟨r, by simp [hrmem], hrn⟩

theorem compareReports_append_skip (old : List Parameter)
    (L : List Parameter) (x : Parameter)
    (hx : x.value = none ∨ findOldValue old x.name = none) :
    compareReports old (L ++ [x]) = compareReports old L := by
  induction L with
  | nil =>
    rw [List.nil_append]
    rcases hx with hx | hx
    · simp [compareReports, hx]
    · cases hv : x.value with
      | none => simp [compareReports, hv]
      | some nv => simp [compareReports, hv, hx]
  | cons p ps ih =>
    rw [List.cons_append, compareReports]
    conv_rhs => rw [compareReports]
    cases hv : p.value with
    | none => exact ih
    | some nv =>
      cases hov : findOldValue old p.name with
      | none => exact ih
      | some ov => rw [ih]

/-! ## Claim theorems -/

/-- C1: for every matched pair with a nonzero old value, whenever the
absolute percentage change is strictly below 5 the classifier outputs
`stable`, regardless of the directionality polarity: the stability threshold
overrides the directionality table. -/
theorem c1_stability_threshold_priority (lowerBetter : Bool) (n u : String)
    (ov nv : ℚ) (h0 : ov ≠ 0) (hlt : pyAbs ((nv - ov) / ov * 100) < 5) :
    trendOf lowerBetter n u ov nv = some Trend.stable := by
  rw [trendOf_of_ne_zero lowerBetter n u ov nv h0, if_pos hlt]

/-- C1 witness: scenario 2 — hemoglobin 13.0 → 13.3 under higher-is-better
has percentage change 30/13 ≈ 2.3 < 5, so the trend is `stable`. -/
theorem c1_stability_threshold_priority_witness :
    (13 : ℚ) ≠ 0 ∧ pyAbs (((133 / 10 : ℚ) - 13) / 13 * 100) < 5 ∧
      trendOf false "Hemoglobin" "g/dL" 13 (133 / 10) = some Trend.stable :=
  ⟨by norm_num, by norm_num [pyAbs],
   c1_stability_threshold_priority false "Hemoglobin" "g/dL" 13 (133 / 10)
     (by norm_num) (by norm_num [pyAbs])⟩

/-- C2 (code bug): at a matched pair with old value 0 and change 5 the
pseudocode's unguarded `change_percentage = (change / old_value) * 100`
divides by zero, so the classifier aborts (`none`) under either polarity
instead of applying the fallback policy the spec requires. -/
theorem c2_zero_old_value_no_fallback :
    classifyPair true "Glucose" "mg/dL" 0 5 = none ∧
    classifyPair false "Hemoglobin" "g/dL" 0 5 = none :=
  ⟨classifyPair_zero true "Glucose" "mg/dL" 5,
   classifyPair_zero false "Hemoglobin" "g/dL" 5⟩

/-- C4: for a matched pair with nonzero old value whose absolute percentage
change is at least 5, the directionality table decides the trend:
lower-is-better maps a negative change to `improved` and a positive change
to `worsened`; higher-is-better maps a positive change to `improved` and a
negative change to `worsened`. -/
theorem c4_directionality_table (lowerBetter : Bool) (n u : String)
    (ov nv : ℚ) (h0 : ov ≠ 0) (hge : 5 ≤ pyAbs ((nv - ov) / ov * 100)) :
    (lowerBetter = true →
      (nv - ov < 0 → trendOf lowerBetter n u ov nv = some Trend.improved) ∧
      (0 < nv - ov → trendOf lowerBetter n u ov nv = some Trend.worsened)) ∧
    (lowerBetter = false →
      (0 < nv - ov → trendOf lowerBetter n u ov nv = some Trend.improved) ∧
      (nv - ov < 0 → trendOf lowerBetter n u ov nv = some Trend.worsened)) := by
  have hns : ¬ pyAbs ((nv - ov) / ov * 100) < 5 := not_lt.mpr hge
  rw [trendOf_of_ne_zero lowerBetter n u ov nv h0]
  constructor
  · rintro rfl
    refine ⟨fun hneg => ?_, fun hpos => ?_⟩
    · simp [hns, hneg]
    · have : ¬ nv - ov < 0 := by linarith
      simp [hns, this]
  · rintro rfl
    refine ⟨fun hpos => ?_, fun hneg => ?_⟩
    · simp [hns, hpos]
    · have : ¬ 0 < nv - ov := by linarith
      simp [hns, this]

/-- C4 witness: scenario 3 — glucose 90 → 140 under lower-is-better has
change 50, percentage change 500/9 ≈ 55.6 ≥ 5, and is classified
`worsened`. -/
theorem c4_directionality_table_witness :
    (90 : ℚ) ≠ 0 ∧ 5 ≤ pyAbs (((140 : ℚ) - 90) / 90 * 100) ∧
      trendOf true "Glucose" "mg/dL" 90 140 = some Trend.worsened ∧
      (classifyPair true "Glucose" "mg/dL" 90 140).map
        ComparisonResult.change_percentage = some (500 / 9) :=
  ⟨by norm_num, by norm_num [pyAbs],
   ((c4_directionality_table true "Glucose" "mg/dL" 90 140
       (by norm_num) (by norm_num [pyAbs])).1 rfl).2 (by norm_num),
   by rw [classifyPair_of_ne_zero true "Glucose" "mg/dL" 90 140 (by norm_num)]
      norm_num⟩

/-- C8 counterexample: with values 10 (in report A) and 0 (in report B)
under lower-is-better, the forward comparison classifies the parameter as
`improved` (change −100%), but the reverse comparison divides by the zero
old value and produces no classification at all — neither `worsened` nor
`stable` — although the claim as stated requires one of the two. -/
theorem c8_reverse_comparison_counterexample :
    trendOf true "Glucose" "mg/dL" 10 0 = some Trend.improved ∧
    trendOf true "Glucose" "mg/dL" 0 10 = none ∧
    ¬(trendOf true "Glucose" "mg/dL" 0 10 = some Trend.worsened ∨
      trendOf true "Glucose" "mg/dL" 0 10 = some Trend.stable) := by
  refine ⟨?_, ?_, ?_⟩
  · rw [trendOf_of_ne_zero true "Glucose" "mg/dL" 10 0 (by norm_num)]
    norm_num [pyAbs]
  · simp [trendOf, classifyPair_zero]
  · simp [trendOf, classifyPair_zero]

/-- C8 (amended): if comparing A (old) to B (new) classifies a parameter as
`improved` under lower-is-better and the parameter's value in B is nonzero,
then the reverse comparison classifies it as `worsened` whenever its
percentage change is at least the stability threshold, and as `stable`
below the threshold.  (When the value in B is zero the reverse comparison's
percentage is undefined — division by zero — and no trend is produced.) -/
theorem c8_reverse_comparison (n u : String) (a b : ℚ) (hb : b ≠ 0)
    (hfwd : trendOf true n u a b = some Trend.improved) :
    (5 ≤ pyAbs ((a - b) / b * 100) →
      trendOf true n u b a = some Trend.worsened) ∧
    (pyAbs ((a - b) / b * 100) < 5 →
      trendOf true n u b a = some Trend.stable) := by
  have ha : a ≠ 0 := by
    intro h0
    rw [h0] at hfwd
    simp [trendOf, classifyPair_zero] at hfwd
  rw [trendOf_of_ne_zero true n u a b ha] at hfwd
  have htr := Option.some.inj hfwd
  have hneg : b - a < 0 := by
    by_cases hstab : pyAbs ((b - a) / a * 100) < 5
    · rw [if_pos hstab] at htr
      exact absurd htr (by simp)
    · rw [if_neg hstab, if_pos rfl] at htr
      by_contra hge
      rw [if_neg hge] at htr
      exact absurd htr (by simp)
  refine ⟨fun hge => ?_, fun hlt => ?_⟩
  · rw [trendOf_of_ne_zero true n u b a hb, if_neg (not_lt.mpr hge),
      if_pos rfl, if_neg (by linarith : ¬ a - b < 0)]
  · rw [trendOf_of_ne_zero true n u b a hb, if_pos hlt]

/-- C8 witness: cholesterol 220 → 180 under lower-is-better is `improved`
(−200/11 ≈ −18.2%); the reverse 180 → 220 has percentage 200/9 ≈ 22.2 ≥ 5
and is classified `worsened`. -/
theorem c8_reverse_comparison_witness :
    (180 : ℚ) ≠ 0 ∧
    trendOf true "Total Cholesterol" "mg/dL" 220 180 = some Trend.improved ∧
    5 ≤ pyAbs (((220 : ℚ) - 180) / 180 * 100) ∧
    trendOf true "Total Cholesterol" "mg/dL" 180 220 =
      some Trend.worsened := by
  have hfwd : trendOf true "Total Cholesterol" "mg/dL" 220 180 =
      some Trend.improved := by
    rw [trendOf_of_ne_zero true "Total Cholesterol" "mg/dL" 220 180
      (by norm_num)]
    norm_num [pyAbs]
  exact ⟨by norm_num, hfwd, by norm_num [pyAbs],
    (c8_reverse_comparison "Total Cholesterol" "mg/dL" 220 180
      (by norm_num) hfwd).1 (by norm_num [pyAbs])⟩

theorem countTrend_cons (t : Trend) (r : ComparisonResult)
    (rs : List ComparisonResult) :
    countTrend t (r :: rs) =
      (if r.trend = t then 1 else 0) + countTrend t rs := by
  by_cases h : r.trend = t <;>
    (simp [countTrend, List.filter_cons, beq_iff_eq, h]; try omega)

theorem countTrend_append (t : Trend) (l₁ l₂ : List ComparisonResult) :
    countTrend t (l₁ ++ l₂) = countTrend t l₁ + countTrend t l₂ := by
  simp [countTrend, List.filter_append]

theorem countTrend_le_length (t : Trend) (rs : List ComparisonResult) :
    countTrend t rs ≤ rs.length :=
  List.length_filter_le _ rs

theorem countTrend_eq_length (t : Trend) (rs : List ComparisonResult)
    (h : ∀ r ∈ rs, r.trend = t) : countTrend t rs = rs.length := by
  induction rs with
  | nil => simp [countTrend]
  | cons r rest ih =>
    rw [countTrend_cons, if_pos (h r (by simp)), List.length_cons,
      ih (fun x hx => h x (by simp [hx]))]
    omega

theorem countTrend_eq_zero (t : Trend) (rs : List ComparisonResult)
    (h : ∀ r ∈ rs, r.trend ≠ t) : countTrend t rs = 0 := by
  induction rs with
  | nil => simp [countTrend]
  | cons r rest ih =>
    rw [countTrend_cons, if_neg (h r (by simp)),
      ih (fun x hx => h x (by simp [hx]))]

theorem aggregate_health_score (rs : List ComparisonResult) :
    (aggregate rs).health_score =
      healthScore (countTrend Trend.improved rs)
        (countTrend Trend.worsened rs) rs.length := rfl

theorem healthScore_bounds (i w n : ℕ) (hi : i ≤ n) (hw : w ≤ n) :
    0 ≤ healthScore i w n ∧ healthScore i w n ≤ 100 := by
  unfold healthScore neutralScore
  split
  · norm_num
  · rename_i hn
    have hn' : (0 : ℚ) < n := by
      exact_mod_cast Nat.pos_of_ne_zero hn
    have hiq : (i : ℚ) ≤ n := by exact_mod_cast hi
    have hwq : (w : ℚ) ≤ n := by exact_mod_cast hw
    have hi0 : (0 : ℚ) ≤ i := by positivity
    have hw0 : (0 : ℚ) ≤ w := by positivity
    have hup : ((i : ℚ) - w) / n ≤ 1 := (div_le_one hn').mpr (by linarith)
    have hlo : -(1 : ℚ) ≤ ((i : ℚ) - w) / n :=
      (le_div_iff₀ hn').mpr (by linarith)
    rw [mul_div_assoc]
    constructor <;> nlinarith

theorem healthScore_all_improved (n : ℕ) (hn : n ≠ 0) :
    healthScore n 0 n = 100 := by
  unfold healthScore neutralScore
  rw [if_neg hn]
  have hn' : (0 : ℚ) < n := by exact_mod_cast Nat.pos_of_ne_zero hn
  rw [Nat.cast_zero, sub_zero, mul_div_assoc, div_self (ne_of_gt hn')]
  norm_num

theorem healthScore_all_worsened (n : ℕ) (hn : n ≠ 0) :
    healthScore 0 n n = 0 := by
  unfold healthScore neutralScore
  rw [if_neg hn]
  have hn' : (0 : ℚ) < n := by exact_mod_cast Nat.pos_of_ne_zero hn
  rw [Nat.cast_zero, zero_sub, mul_div_assoc, neg_div,
    div_self (ne_of_gt hn')]
  norm_num

theorem healthScore_all_stable (n : ℕ) : healthScore 0 0 n = neutralScore := by
  unfold healthScore
  split
  · rfl
  · simp

theorem healthScore_mono_improved (i w n : ℕ) (hn : n ≠ 0) :
    healthScore i w n ≤ healthScore (i + 1) w n := by
  unfold healthScore neutralScore
  rw [if_neg hn, if_neg hn]
  have hn' : (0 : ℚ) < n := by exact_mod_cast Nat.pos_of_ne_zero hn
  have hAB : ((i : ℚ) - w) ≤ ((i + 1 : ℕ) : ℚ) - w := by push_cast; linarith
  rw [mul_div_assoc, mul_div_assoc]
  refine add_le_add_left (mul_le_mul_of_nonneg_left ?_ (by norm_num)) _
  exact (div_le_div_iff_of_pos_right hn').mpr hAB

theorem healthScore_anti_worsened (i w n : ℕ) (hn : n ≠ 0) :
    healthScore i (w + 1) n ≤ healthScore i w n := by
  unfold healthScore neutralScore
  rw [if_neg hn, if_neg hn]
  have hn' : (0 : ℚ) < n := by exact_mod_cast Nat.pos_of_ne_zero hn
  have hAB : ((i : ℚ) - ((w + 1 : ℕ) : ℚ)) ≤ (i : ℚ) - w := by
    push_cast
    linarith
  rw [mul_div_assoc, mul_div_assoc]
  refine add_le_add_left (mul_le_mul_of_nonneg_left ?_ (by norm_num)) _
  exact (div_le_div_iff_of_pos_right hn').mpr hAB

/-- C3: for every list of comparison results, the Aggregator's summary
satisfies `improved + worsened + stable = total_parameters`. -/
theorem c3_counts_partition (rs : List ComparisonResult) :
    (aggregate rs).improved + (aggregate rs).worsened +
      (aggregate rs).stable = (aggregate rs).total_parameters := by
  show countTrend Trend.improved rs + countTrend Trend.worsened rs +
    countTrend Trend.stable rs = rs.length
  induction rs with
  | nil => simp [countTrend]
  | cons r rest ih =>
    rw [countTrend_cons, countTrend_cons, countTrend_cons, List.length_cons]
    cases h : r.trend <;> (simp [h]; omega)

/-- C5 counterexample: in the empty result list every trend is (vacuously)
`improved`, yet the health score is the neutral 50, not 100 — the
all-improved → 100 clause cannot hold for the empty list (which is equally
vacuously all-worsened, demanding 0). -/
theorem c5_health_score_counterexample :
    (∀ r ∈ ([] : List ComparisonResult), r.trend = Trend.improved) ∧
    (aggregate []).health_score ≠ 100 := by
  constructor
  · intro r hr
    cases hr
  · rw [aggregate_health_score]
    simp [countTrend, healthScore, neutralScore]

/-- C5 (amended): the health score is a 0–100 scalar; a NONEMPTY result
list with every trend `improved` scores 100 and with every trend `worsened`
scores 0; an all-stable list scores the fixed neutral value; and the score
is monotonic — replacing one `stable` result with `improved` (all else
equal) never decreases it, and replacing one `stable` with `worsened` never
increases it.  (The empty list scores the neutral value.) -/
theorem c5_health_score_properties (rs : List ComparisonResult) :
    (0 ≤ (aggregate rs).health_score ∧ (aggregate rs).health_score ≤ 100) ∧
    (rs ≠ [] → (∀ r ∈ rs, r.trend = Trend.improved) →
      (aggregate rs).health_score = 100) ∧
    (rs ≠ [] → (∀ r ∈ rs, r.trend = Trend.worsened) →
      (aggregate rs).health_score = 0) ∧
    ((∀ r ∈ rs, r.trend = Trend.stable) →
      (aggregate rs).health_score = neutralScore) ∧
    (∀ (l₁ l₂ : List ComparisonResult) (rS rI rW : ComparisonResult),
      rS.trend = Trend.stable → rI.trend = Trend.improved →
      rW.trend = Trend.worsened →
      (aggregate (l₁ ++ rS :: l₂)).health_score ≤
          (aggregate (l₁ ++ rI :: l₂)).health_score ∧
        (aggregate (l₁ ++ rW :: l₂)).health_score ≤
          (aggregate (l₁ ++ rS :: l₂)).health_score) := by
  refine ⟨?_, ?_, ?_, ?_, ?_⟩
  · rw [aggregate_health_score]
    exact healthScore_bounds _ _ _ (countTrend_le_length _ _)
      (countTrend_le_length _ _)
  · intro hne hall
    rw [aggregate_health_score,
      countTrend_eq_length Trend.improved rs hall,
      countTrend_eq_zero Trend.worsened rs
        (fun r hr => by rw [hall r hr]; simp)]
    exact healthScore_all_improved _ (by simpa using hne)
  · intro hne hall
    rw [aggregate_health_score,
      countTrend_eq_length Trend.worsened rs hall,
      countTrend_eq_zero Trend.improved rs
        (fun r hr => by rw [hall r hr]; simp)]
    exact healthScore_all_worsened _ (by simpa using hne)
  · intro hall
    rw [aggregate_health_score,
      countTrend_eq_zero Trend.improved rs
        (fun r hr => by rw [hall r hr]; simp),
      countTrend_eq_zero Trend.worsened rs
        (fun r hr => by rw [hall r hr]; simp)]
    exact healthScore_all_stable _
  · intro l₁ l₂ rS rI rW hS hI hW
    have hlen : ∀ x : ComparisonResult,
        (l₁ ++ x :: l₂).length = l₁.length + l₂.length + 1 := by
      intro x
      simp only [List.length_append, List.length_cons]
      omega
    have hcnt : ∀ (t : Trend) (x : ComparisonResult),
        countTrend t (l₁ ++ x :: l₂) =
          countTrend t l₁ + ((if x.trend = t then 1 else 0) +
            countTrend t l₂) := by
      intro t x
      rw [countTrend_append, countTrend_cons]
    have hn : l₁.length + l₂.length + 1 ≠ 0 := by omega
    constructor
    · rw [aggregate_health_score, aggregate_health_score, hlen, hlen,
        hcnt Trend.improved rS, hcnt Trend.improved rI,
        hcnt Trend.worsened rS, hcnt Trend.worsened rI, hS, hI]
      simp only [reduceCtorEq, if_false, if_true, reduceIte]
      have he : countTrend Trend.improved l₁ +
          (1 + countTrend Trend.improved l₂) =
          countTrend Trend.improved l₁ +
            (0 + countTrend Trend.improved l₂) + 1 := by omega
      rw [he]
      exact healthScore_mono_improved _ _ _ hn
    · rw [aggregate_health_score, aggregate_health_score, hlen, hlen,
        hcnt Trend.improved rS, hcnt Trend.improved rW,
        hcnt Trend.worsened rS, hcnt Trend.worsened rW, hS, hW]
      simp only [reduceCtorEq, if_false, if_true, reduceIte]
      have he : countTrend Trend.worsened l₁ +
          (1 + countTrend Trend.worsened l₂) =
          countTrend Trend.worsened l₁ +
            (0 + countTrend Trend.worsened l₂) + 1 := by omega
      rw [he]
      exact healthScore_anti_worsened _ _ _ hn

/-- Concrete `improved` comparison result (cholesterol 220 → 180). -/
def resImp : ComparisonResult :=
  { parameter_name := "Total Cholesterol", old_value := 220, new_value := 180,
    unit := "mg/dL", change := -40, change_percentage := -200 / 11,
    trend := Trend.improved }

/-- Concrete `stable` comparison result (hemoglobin 13 → 13.3). -/
def resSta : ComparisonResult :=
  { parameter_name := "Hemoglobin", old_value := 13, new_value := 133 / 10,
    unit := "g/dL", change := 3 / 10, change_percentage := 30 / 13,
    trend := Trend.stable }

/-- Concrete `worsened` comparison result (glucose 90 → 140). -/
def resWor : ComparisonResult :=
  { parameter_name := "Glucose", old_value := 90, new_value := 140,
    unit := "mg/dL", change := 50, change_percentage := 500 / 9,
    trend := Trend.worsened }

/-- C5 witness: the singleton all-improved list scores 100, and swapping the
single `stable` result for `improved` (resp. `worsened`) moves the score
up (resp. down). -/
theorem c5_health_score_properties_witness :
    (aggregate [resImp]).health_score = 100 ∧
    (aggregate [resSta]).health_score ≤ (aggregate [resImp]).health_score ∧
    (aggregate [resWor]).health_score ≤ (aggregate [resSta]).health_score := by
  have h1 := (c5_health_score_properties [resImp]).2.1 (by simp)
    (by intro r hr; rw [List.mem_singleton] at hr; rw [hr]; rfl)
  have hm := (c5_health_score_properties []).2.2.2.2 [] [] resSta resImp
    resWor rfl rfl rfl
  exact ⟨h1, by simpa using hm.1, by simpa using hm.2⟩

/-- Concrete old report used by witnesses. -/
def oldR : List Parameter :=
  [{ name := "Total Cholesterol", value := some 220, unit := "mg/dL",
     reference_range := "", status := "High" },
   { name := "Hemoglobin", value := some 13, unit := "g/dL",
     reference_range := "", status := "Normal" }]

/-- Concrete new report used by witnesses; "Vitamin D" has no counterpart in
`oldR`. -/
def newR : List Parameter :=
  [{ name := "Total Cholesterol", value := some 180, unit := "mg/dL",
     reference_range := "", status := "Normal" },
   { name := "Hemoglobin", value := some (133 / 10), unit := "g/dL",
     reference_range := "", status := "Normal" },
   { name := "Vitamin D", value := some 50, unit := "ng/mL",
     reference_range := "", status := "Normal" }]

theorem compareReports_oldR_newR :
    compareReports oldR newR = some [resImp, resSta] := by
  simp [compareReports, oldR, newR, findOldValue, find_parameter_in_old_report,
    List.filter, List.find?, beq_strings, classifyPair,
    parameter_improves_when_lower, lowerIsBetterNames, pyAbs, resImp, resSta]
  norm_num

theorem findOldValue_oldR_vitaminD :
    findOldValue oldR "Vitamin D" = none := by
  simp [findOldValue, find_parameter_in_old_report, oldR, List.filter,
    List.find?, beq_strings]

/-- C6: under a successful comparison, the output contains a result for a
parameter name exactly when the name carries a numeric value in both input
collections; and appending a parameter with no numeric counterpart in the
old report leaves the comparison output (hence `total_parameters`)
unchanged — it is dropped silently, not reported as an error. -/
theorem c6_matcher_exact_pairs (old L : List Parameter)
    (rs : List ComparisonResult) (h : compareReports old L = some rs) :
    (∀ n : String,
      (∃ r ∈ rs, r.parameter_name = n) ↔
        ((∃ p ∈ L, p.name = n ∧ p.value.isSome) ∧
         (∃ q ∈ old, q.name = n ∧ q.value.isSome))) ∧
    (∀ x : Parameter, x.value = none ∨ findOldValue old x.name = none →
      compareReports old (L ++ [x]) = some rs) := by
  constructor
  · intro n
    constructor
    · rintro ⟨r, hr, rfl⟩
      exact compareReports_mem old L rs h r hr
    · rintro ⟨hnew, holdside⟩
      exact compareReports_mem_exists old L rs n h hnew holdside
  · intro x hx
    rw [compareReports_append_skip old L x hx, h]

/-- C6 witness: scenario 4 — "Vitamin D" is present only in the new report;
the comparison output has no entry for it, and appending another
old-side-missing "Vitamin D" parameter leaves the output unchanged. -/
theorem c6_matcher_exact_pairs_witness :
    compareReports oldR newR = some [resImp, resSta] ∧
    ¬(∃ r ∈ [resImp, resSta], r.parameter_name = "Vitamin D") ∧
    compareReports oldR (newR ++
        [{ name := "Vitamin D", value := some 50, unit := "ng/mL",
           reference_range := "", status := "Normal" }]) =
      some [resImp, resSta] := by
  have hc := c6_matcher_exact_pairs oldR newR [resImp, resSta]
    compareReports_oldR_newR
  refine ⟨compareReports_oldR_newR, ?_, ?_⟩
  · intro hex
    rcases (hc.1 "Vitamin D").mp hex with ⟨-, ⟨q, hq, hqn, -⟩⟩
    simp [oldR] at hq
    rcases hq with hq | hq <;> (rw [hq] at hqn; simp at hqn)
  · exact hc.2 _ (Or.inr findOldValue_oldR_vitaminD)

theorem compareReports_disjoint (old L : List Parameter)
    (h : ∀ n : String,
      ¬((∃ p ∈ L, p.name = n ∧ p.value.isSome) ∧
        (∃ q ∈ old, q.name = n ∧ q.value.isSome))) :
    compareReports old L = some [] := by
  induction L with
  | nil => rw [compareReports]
  | cons p ps ih =>
    have hps : ∀ n : String,
        ¬((∃ p' ∈ ps, p'.name = n ∧ p'.value.isSome) ∧
          (∃ q ∈ old, q.name = n ∧ q.value.isSome)) := by
      rintro n ⟨⟨p', hp', hn', hv'⟩, holdside⟩
      exact h n ⟨⟨p', List.mem_cons_of_mem _ hp', hn', hv'⟩, holdside⟩
    rw [compareReports]
    cases hv : p.value with
    | none => exact ih hps
    | some nv =>
      cases hov : findOldValue old p.name with
      | none => exact ih hps
      | some ov =>
        exfalso
        have hos : (findOldValue old p.name).isSome := by simp [hov]
        rcases (findOldValue_isSome_iff old p.name).mp hos with
          ⟨q, hq, hqn, hqv⟩
        exact h p.name ⟨⟨p, by simp, rfl, by simp [hv]⟩, ⟨q, hq, hqn, hqv⟩⟩

/-- C7: when the two reports share no parameter name carrying numeric
values on both sides, the comparison returns successfully with an empty
result list, and the summary of that empty list has `total_parameters = 0`,
`improvement_rate = 0` (not NaN — the rate is guarded), and the neutral
health score. -/
theorem c7_no_overlap (old L : List Parameter)
    (h : ∀ n : String,
      ¬((∃ p ∈ L, p.name = n ∧ p.value.isSome) ∧
        (∃ q ∈ old, q.name = n ∧ q.value.isSome))) :
    compareReports old L = some [] ∧
    (aggregate []).total_parameters = 0 ∧
    (aggregate []).improvement_rate = 0 ∧
    (aggregate []).health_score = neutralScore :=
  ⟨compareReports_disjoint old L h, rfl, rfl, rfl⟩

/-- Concrete disjoint reports for the C7 witness. -/
def oldD : List Parameter :=
  [{ name := "Total Cholesterol", value := some 220, unit := "mg/dL",
     reference_range := "", status := "High" }]

/-- New report sharing no parameter with `oldD`. -/
def newD : List Parameter :=
  [{ name := "Vitamin D", value := some 50, unit := "ng/mL",
     reference_range := "", status := "Normal" }]

/-- C7 witness: comparing the disjoint `oldD` and `newD` yields an empty
comparison with zero improvement rate and the neutral health score. -/
theorem c7_no_overlap_witness :
    compareReports oldD newD = some [] ∧
    (aggregate []).improvement_rate = 0 ∧
    (aggregate []).health_score = neutralScore := by
  have h : ∀ n : String,
      ¬((∃ p ∈ newD, p.name = n ∧ p.value.isSome) ∧
        (∃ q ∈ oldD, q.name = n ∧ q.value.isSome)) := by
    rintro n ⟨⟨p, hp, hpn, -⟩, ⟨q, hq, hqn, -⟩⟩
    simp [newD] at hp
    simp [oldD] at hq
    rw [hp] at hpn
    rw [hq] at hqn
    simp only [] at hpn hqn
    rw [← hpn] at hqn
    simp at hqn
  have hc := c7_no_overlap oldD newD h
  exact ⟨hc.1, hc.2.2.1, hc.2.2.2⟩

/-- C9: the fuzzy `getParameterInfo` lookup feeds only the display metadata
attached to the rendered view — projecting the comparison results out of the
rendered view gives the same answer for any descriptions table — and which
pairs are matched is determined solely by exact name equality: every result
comes from a new-report parameter and an old-report parameter bearing
exactly the result's parameter name. -/
theorem c9_fuzzy_only_display (t₁ t₂ : List (String × ParamInfo))
    (old L : List Parameter) :
    (renderView t₁ old L).map (List.map Prod.fst) =
      (renderView t₂ old L).map (List.map Prod.fst) ∧
    (∀ rs, compareReports old L = some rs →
      ∀ r ∈ rs,
        (∃ p ∈ L, p.name = r.parameter_name ∧ p.value.isSome) ∧
        (∃ q ∈ old, q.name = r.parameter_name ∧ q.value.isSome)) := by
  constructor
  · cases hcr : compareReports old L with
    | none => simp [renderView, hcr]
    | some rs => simp [renderView, hcr, List.map_map, Function.comp]
  · intro rs h r hr
    exact compareReports_mem old L rs h r hr

/-- C9 witness: with the literal frontend table versus the empty table the
projected comparisons agree, and the matched "Total Cholesterol" result is
backed by exactly-named parameters in both concrete reports. -/
theorem c9_fuzzy_only_display_witness :
    (renderView parameterInfo oldR newR).map (List.map Prod.fst) =
      (renderView [] oldR newR).map (List.map Prod.fst) ∧
    (∃ p ∈ newR, p.name = resImp.parameter_name ∧ p.value.isSome) ∧
    (∃ q ∈ oldR, q.name = resImp.parameter_name ∧ q.value.isSome) := by
  have hc := c9_fuzzy_only_display parameterInfo [] oldR newR
  have hm := hc.2 [resImp, resSta] compareReports_oldR_newR resImp (by simp)
  exact ⟨hc.1, hm.1, hm.2⟩

/-- C10: the Compare page chart fractions divide by `total_parameters` with
no zero guard: on a comparison whose summary has `total_parameters = 0`
(e.g. the empty comparison produced by two empty reports) every pie-slice
dash length and bar width evaluates to JavaScript `NaN` (0/0), not 0. -/
theorem c10_chart_fractions_nan :
    compareReports [] [] = some [] ∧
    (aggregate []).total_parameters = 0 ∧
    pieImprovedDash (aggregate []) = JSNum.nan ∧
    pieWorsenedDash (aggregate []) = JSNum.nan ∧
    pieStableDash (aggregate []) = JSNum.nan ∧
    barImprovedWidth (aggregate []) = JSNum.nan ∧
    barWorsenedWidth (aggregate []) = JSNum.nan ∧
    barStableWidth (aggregate []) = JSNum.nan := by
  refine ⟨by rw [compareReports], rfl, ?_, ?_, ?_, ?_, ?_, ?_⟩ <;>
    norm_num [pieImprovedDash, pieWorsenedDash, pieStableDash,
      barImprovedWidth, barWorsenedWidth, barStableWidth,
      aggregate, countTrend, jsDiv, jsMul]

end MedReport
